import Mathlib

/-!
Shallow embedding of the StablePay `InvoiceRegistry` contract
(`src/contracts/InvoiceRegistry.sol`) and of the dashboard's invoice status
projection (`src/types.ts`, `src/scripts/update-constants.js`).

Modelling conventions:
* Addresses, amounts, timestamps and ids are `Nat`; the EVM null address is `0`.
* `bytes32` values that arise as keccak hashes are modelled symbolically by the
  inductive `B32`: the hash function is collision resistant, so it is modelled
  as an injective constructor, and the all-zero `bytes32` (the default value of
  an unset storage slot) is a distinct constructor.
* The EIP-712 digest `keccak256("\x19\x01" ‖ DOMAIN_SEPARATOR ‖ structHash)` is
  likewise modelled symbolically by the `Digest` structure, injective in the
  domain separator and in every struct field.
* ECDSA signatures are modelled symbolically (Dolev-Yao style): a signature
  carries the digest it signs and the signer it recovers to; `ecrecover`
  applied to any other digest yields the null address.  This captures
  unforgeability and the behaviour `ecrecover` has on mismatched input.
* Each external contract function returns `Except RegistryError RegistryState`.
  `Except.error` models a reverted transaction: in the EVM every storage write
  of the call is discarded, so an error result carries no state and the
  caller's pre-state remains current (see `step`).
* The Bank precompile's `transferFrom` is an external capability; it is passed
  in as a function `Bank` that may observe the registry state current at the
  moment of the call (so that reentrancy-ordering properties are expressible)
  and returns success or failure.
-/

namespace StablePay

/-- Symbolic `bytes32` values: the zero word (default storage value) or the
keccak hash of a byte string (collision resistance = injectivity). -/
inductive B32 where
  | zero : B32
  | keccakStr : String → B32
deriving DecidableEq, Repr

/-- The `Invoice` struct of `InvoiceRegistry.sol`
(status encoding per the source comment: 0 Pending, 1 Paid, 2 Cancelled). -/
structure Invoice where
  merchant : Nat
  payer : Nat
  amount : Nat
  expiresAt : Nat
  status : Nat
  metaHash : B32
deriving DecidableEq, Repr

/-- The default value of an unset `mapping(uint256 => Invoice)` slot:
every field zero. -/
def zeroInvoice : Invoice :=
  { merchant := 0, payer := 0, amount := 0, expiresAt := 0, status := 0, metaHash := B32.zero }

/-- Revert reasons of the contract, one constructor per `require` string. -/
inductive RegistryError where
  | notPending
  | expired
  | wrongPayer
  | transferFailed
  | notMerchant
  | cannotCancel
  | invalidSignature
deriving DecidableEq, Repr

/-- Symbolic EIP-712 digest: `keccak256("\x19\x01" ‖ domain ‖
keccak256(abi.encode(INVOICE_TYPEHASH, merchant, payer, amount, expiresAt,
metaHash, nonce)))`, modelled as an injective record of its preimage fields. -/
structure Digest where
  domain : Nat
  merchant : Nat
  payer : Nat
  amount : Nat
  expiresAt : Nat
  metaHash : B32
  nonce : Nat
deriving DecidableEq, Repr

/-- Symbolic ECDSA signature `(v, r, s)`: it determines the digest it was made
over and the address it recovers to on that digest. -/
structure Sig where
  signer : Nat
  digest : Digest
deriving DecidableEq, Repr

/-- Symbolic `ecrecover`: recovers `sig.signer` on the digest the signature was
made over and the null address (recovery failure) on any other digest. -/
def ecrecover (d : Digest) (sig : Sig) : Nat :=
  if sig.digest = d then sig.signer else 0

/-- Storage of one deployed `InvoiceRegistry`.  `domain` is the
`DOMAIN_SEPARATOR` fixed by the constructor; `invoices` and `nonces` are
Solidity mappings (total functions with zero defaults). -/
structure RegistryState where
  domain : Nat
  invoices : Nat → Invoice
  nextInvoiceId : Nat
  nonces : Nat → Nat

/-- The storage of a freshly deployed registry with domain separator `d`:
both mappings all-zero, `nextInvoiceId = 0`. -/
def initState (d : Nat) : RegistryState :=
  { domain := d, invoices := fun _ => zeroInvoice, nextInvoiceId := 0, nonces := fun _ => 0 }

/-- The external transfer capability `IBank.transferFrom`, observing the
registry state current at call time: `bank st from to amount = success`. -/
def Bank : Type := RegistryState → Nat → Nat → Nat → Bool

/-- `createInvoice(_payer, _amount, _expiresAt, _metadata)` called by
`sender`: allocates `nextInvoiceId`, stores a Pending invoice with
`metaHash = keccak256(_metadata)`, returns the id.  Never reverts. -/
def createInvoice (st : RegistryState) (sender payer amount expiresAt : Nat)
    (metadata : String) : Nat × RegistryState :=
  let invoiceId := st.nextInvoiceId
  let metaHash := B32.keccakStr metadata
  let inv : Invoice :=
    { merchant := sender, payer := payer, amount := amount, expiresAt := expiresAt,
      status := 0, metaHash := metaHash }
  (invoiceId,
    { st with
      nextInvoiceId := invoiceId + 1,
      invoices := Function.update st.invoices invoiceId inv })

/-- The storage after `pay`'s write `invoice.status = 1` (line 79 of the
source): the targeted slot's status set to Paid, everything else unchanged. -/
def payPost (st : RegistryState) (invoiceId : Nat) : RegistryState :=
  { st with
    invoices :=
      Function.update st.invoices invoiceId { st.invoices invoiceId with status := 1 } }

/-- `pay(_invoiceId)` called by `sender` at block timestamp `now`, with the
Bank precompile behaving as `bank`.  Checks in source order: status Pending
(`"Not pending"`), not expired (`"Expired"`), payer restriction
(`"Wrong payer"`); then writes `status := 1` and only afterwards calls
`transferFrom(sender, merchant, amount)`, reverting everything
(`"Transfer failed"`) if it returns false. -/
def pay (bank : Bank) (st : RegistryState) (now sender invoiceId : Nat) :
    Except RegistryError RegistryState :=
  let invoice := st.invoices invoiceId
  if invoice.status ≠ 0 then .error .notPending
  else if invoice.expiresAt < now then .error .expired
  else if invoice.payer ≠ 0 ∧ sender ≠ invoice.payer then .error .wrongPayer
  else
    let paid := payPost st invoiceId
    if bank paid sender invoice.merchant invoice.amount then .ok paid
    else .error .transferFailed

/-- The storage after `cancelInvoice`'s write `invoice.status = 2`. -/
def cancelPost (st : RegistryState) (invoiceId : Nat) : RegistryState :=
  { st with
    invoices :=
      Function.update st.invoices invoiceId { st.invoices invoiceId with status := 2 } }

/-- `cancelInvoice(_invoiceId)` called by `sender`: requires the caller to be
the merchant (`"Not merchant"`), then status Pending (`"Cannot cancel"`),
then writes `status := 2`. -/
def cancelInvoice (st : RegistryState) (sender invoiceId : Nat) :
    Except RegistryError RegistryState :=
  let invoice := st.invoices invoiceId
  if sender ≠ invoice.merchant then .error .notMerchant
  else if invoice.status ≠ 0 then .error .cannotCancel
  else .ok (cancelPost st invoiceId)

/-- `_verifySignature`: builds the EIP-712 digest over
`(merchant, payer, amount, expiresAt, metaHash, nonce)` under the contract's
domain separator, recovers the signer and returns
`recovered != address(0) && recovered == merchant`. -/
def verifySignature (st : RegistryState) (merchant payer amount expiresAt : Nat)
    (metaHash : B32) (nonce : Nat) (sig : Sig) : Bool :=
  let d : Digest :=
    { domain := st.domain, merchant := merchant, payer := payer, amount := amount,
      expiresAt := expiresAt, metaHash := metaHash, nonce := nonce }
  let recovered := ecrecover d sig
  decide (recovered ≠ 0 ∧ recovered = merchant)

/-- The storage committed by a successful `createAndPayInvoice`, applying the
source's writes in order: nonce increment (line 148), id allocation (line
151), then storing the invoice directly with `status = 1` (line 152). -/
def gaslessPost (st : RegistryState) (merchant payer amount expiresAt : Nat)
    (metaHash : B32) : RegistryState :=
  let st1 : RegistryState :=
    { st with nonces := Function.update st.nonces merchant (st.nonces merchant + 1) }
  let invoiceId := st1.nextInvoiceId
  let inv : Invoice :=
    { merchant := merchant, payer := payer, amount := amount, expiresAt := expiresAt,
      status := 1, metaHash := metaHash }
  { st1 with
    nextInvoiceId := invoiceId + 1,
    invoices := Function.update st1.invoices invoiceId inv }

/-- `createAndPayInvoice(_merchant, _payer, _amount, _expiresAt, _metadata,
_v, _r, _s)` called by `sender` at timestamp `now`.  Source order: expiry
check (`"Expired"`), payer restriction (`"Wrong payer"`), signature
verification against the merchant's current nonce (`"Invalid signature"`),
then the commit of `gaslessPost`, and finally
`transferFrom(sender, merchant, amount)`
(`"Transfer failed"` reverts everything). -/
def createAndPayInvoice (bank : Bank) (st : RegistryState) (now sender : Nat)
    (merchant payer amount expiresAt : Nat) (metadata : String) (sig : Sig) :
    Except RegistryError RegistryState :=
  if expiresAt < now then .error .expired
  else if payer ≠ 0 ∧ sender ≠ payer then .error .wrongPayer
  else
    let metaHash := B32.keccakStr metadata
    let currentNonce := st.nonces merchant
    if ¬ verifySignature st merchant payer amount expiresAt metaHash currentNonce sig then
      .error .invalidSignature
    else
      let st2 := gaslessPost st merchant payer amount expiresAt metaHash
      if bank st2 sender merchant amount then .ok st2
      else .error .transferFailed

/-- `getInvoice(_invoiceId)`: read-only projection of the mapping slot
(the zero invoice for ids never written). -/
def getInvoice (st : RegistryState) (invoiceId : Nat) : Invoice :=
  st.invoices invoiceId

/-- One external transaction against the registry. -/
inductive Op where
  | createOp (sender payer amount expiresAt : Nat) (metadata : String)
  | payOp (bank : Bank) (now sender invoiceId : Nat)
  | cancelOp (sender invoiceId : Nat)
  | gaslessOp (bank : Bank) (now sender merchant payer amount expiresAt : Nat)
      (metadata : String) (sig : Sig)

/-- Transaction semantics: a successful call commits its new storage, a
reverted call (`Except.error`) leaves storage exactly as before. -/
def step (st : RegistryState) : Op → RegistryState
  | .createOp sender payer amount expiresAt metadata =>
      (createInvoice st sender payer amount expiresAt metadata).2
  | .payOp bank now sender invoiceId =>
      match pay bank st now sender invoiceId with
      | .ok st2 => st2
      | .error _ => st
  | .cancelOp sender invoiceId =>
      match cancelInvoice st sender invoiceId with
      | .ok st2 => st2
      | .error _ => st
  | .gaslessOp bank now sender merchant payer amount expiresAt metadata sig =>
      match createAndPayInvoice bank st now sender merchant payer amount expiresAt metadata sig with
      | .ok st2 => st2
      | .error _ => st

/-- Run a sequence of transactions. -/
def execTrace (st : RegistryState) : List Op → RegistryState
  | [] => st
  | op :: ops => execTrace (step st op) ops

/-- A gasless transaction `op` run from state `st` consumes nonce value `n` of
merchant `m`: it is a `createAndPayInvoice` for `m`, `m`'s stored nonce is `n`
at that point, and the call succeeds. -/
def consumes (st : RegistryState) (op : Op) (m n : Nat) : Prop :=
  ∃ bank now sender payer amount expiresAt metadata sig st2,
    op = Op.gaslessOp bank now sender m payer amount expiresAt metadata sig ∧
    st.nonces m = n ∧
    createAndPayInvoice bank st now sender m payer amount expiresAt metadata sig = .ok st2

/-- A transfer capability that always succeeds (a payer with sufficient
balance and approval). -/
def bankTrue : Bank := fun _ _ _ _ => true

/-- A transfer capability that always fails (no balance or approval). -/
def bankFalse : Bank := fun _ _ _ _ => false

/-! ## Concrete scenario data used to exercise the theorems -/

/-- Digest over domain 0, merchant 1, open payer, amount 5, expiry 10,
metadata `"x"`, nonce 0. -/
def demoDigest : Digest :=
  { domain := 0, merchant := 1, payer := 0, amount := 5, expiresAt := 10,
    metaHash := B32.keccakStr "x", nonce := 0 }

/-- Merchant 1's valid signature over `demoDigest`. -/
def demoSig : Sig := { signer := 1, digest := demoDigest }

/-- A signature recovering to address 2, not merchant 1: over invoice fields
(merchant 1, open payer, amount 10, expiry 3, metadata `"x"`, nonce 0). -/
def mismatchSig : Sig :=
  { signer := 2,
    digest := { domain := 0, merchant := 1, payer := 0, amount := 10, expiresAt := 3,
                metaHash := B32.keccakStr "x", nonce := 0 } }

/-- A fresh registry (domain 0) holding one Pending invoice, id 0:
merchant 1, open payer, amount 5, expiry 10, metadata `"x"`. -/
def stPending : RegistryState := (createInvoice (initState 0) 1 0 5 10 "x").2

/-- `stPending` after payer 7 paid invoice 0 at time 1 with a succeeding
transfer: invoice 0 is Paid. -/
def stPaid : RegistryState := step stPending (Op.payOp bankTrue 1 7 0)

/-! ## Frontend status projection (`src/types.ts`, `src/scripts/update-constants.js`) -/

/-- The TypeScript `enum InvoiceStatus` of `src/types.ts`:
`NONE = 0, CREATED = 1, PAID = 2, CANCELLED = 3`. -/
inductive InvoiceStatus where
  | NONE
  | CREATED
  | PAID
  | CANCELLED
deriving DecidableEq, Repr

/-- Numeric value of each TypeScript enum member. -/
def InvoiceStatus.toNat : InvoiceStatus → Nat
  | .NONE => 0
  | .CREATED => 1
  | .PAID => 2
  | .CANCELLED => 3

/-- The contract-side meaning of the stored `uint8 status`, per the source
comment `// 0: Pending, 1: Paid, 2: Cancelled`. -/
inductive ContractStatus where
  | Pending
  | Paid
  | Cancelled
deriving DecidableEq, Repr

/-- Decode the contract's status byte (only 0, 1, 2 occur in storage). -/
def contractStatusOfNat (raw : Nat) : ContractStatus :=
  if raw = 0 then .Pending else if raw = 1 then .Paid else .Cancelled

/-- The dashboard projection in `getMerchantInvoices`
(`status: Number(currentData.status)`): the raw on-chain number is placed into
the `InvoiceStatus`-typed field unchanged. -/
def projectStatus (raw : Nat) : InvoiceStatus :=
  if raw = 0 then .NONE
  else if raw = 1 then .CREATED
  else if raw = 2 then .PAID
  else .CANCELLED

/-- The faithful rendering of a contract status in the TypeScript enum, used
to state how the projection diverges: a Paid invoice should display as `PAID`
and a Cancelled one as `CANCELLED`. -/
def intendedTs : ContractStatus → InvoiceStatus
  | .Pending => .CREATED
  | .Paid => .PAID
  | .Cancelled => .CANCELLED

/-! ## Inversion lemmas for the three fallible entry points -/

theorem pay_ok_iff (bank : Bank) (st : RegistryState) (now sender invoiceId : Nat)
    (st2 : RegistryState) :
    pay bank st now sender invoiceId = .ok st2 ↔
      (st.invoices invoiceId).status = 0 ∧
      ¬ (st.invoices invoiceId).expiresAt < now ∧
      ¬ ((st.invoices invoiceId).payer ≠ 0 ∧ sender ≠ (st.invoices invoiceId).payer) ∧
      bank (payPost st invoiceId) sender (st.invoices invoiceId).merchant
        (st.invoices invoiceId).amount = true ∧
      st2 = payPost st invoiceId := by
  unfold pay
  dsimp only
  split_ifs with h1 h2 h3 h4
  · exact iff_of_false (by simp) (fun h => h1 h.1)
  · exact iff_of_false (by simp) (fun h => h.2.1 h2)
  · exact iff_of_false (by simp) (fun h => h.2.2.1 h3)
  · simp only [Except.ok.injEq]
    constructor
    · rintro rfl
      exact ⟨not_not.mp h1, h2, h3, h4, rfl⟩
    · rintro ⟨-, -, -, -, rfl⟩
      rfl
  · exact iff_of_false (by simp) (fun h => h4 h.2.2.2.1)

theorem cancelInvoice_ok_iff (st : RegistryState) (sender invoiceId : Nat)
    (st2 : RegistryState) :
    cancelInvoice st sender invoiceId = .ok st2 ↔
      sender = (st.invoices invoiceId).merchant ∧
      (st.invoices invoiceId).status = 0 ∧
      st2 = cancelPost st invoiceId := by
  unfold cancelInvoice
  dsimp only
  split_ifs with h1 h2
  · exact iff_of_false (by simp) (fun h => h1 h.1)
  · exact iff_of_false (by simp) (fun h => h2 h.2.1)
  · simp only [Except.ok.injEq]
    constructor
    · rintro rfl
      exact ⟨not_not.mp h1, not_not.mp h2, rfl⟩
    · rintro ⟨-, -, rfl⟩
      rfl

theorem createAndPay_ok_iff (bank : Bank) (st : RegistryState) (now sender : Nat)
    (merchant payer amount expiresAt : Nat) (metadata : String) (sig : Sig)
    (st2 : RegistryState) :
    createAndPayInvoice bank st now sender merchant payer amount expiresAt metadata sig
        = .ok st2 ↔
      ¬ expiresAt < now ∧
      ¬ (payer ≠ 0 ∧ sender ≠ payer) ∧
      verifySignature st merchant payer amount expiresAt (B32.keccakStr metadata)
        (st.nonces merchant) sig = true ∧
      bank (gaslessPost st merchant payer amount expiresAt (B32.keccakStr metadata))
        sender merchant amount = true ∧
      st2 = gaslessPost st merchant payer amount expiresAt (B32.keccakStr metadata) := by
  unfold createAndPayInvoice
  dsimp only
  split_ifs with h1 h2 h3 h4
  · exact iff_of_false (by simp) (fun h => h.1 h1)
  · exact iff_of_false (by simp) (fun h => h.2.1 h2)
  · simp only [Except.ok.injEq]
    constructor
    · rintro rfl
      exact ⟨h1, h2, h3, h4, rfl⟩
    · rintro ⟨-, -, -, -, rfl⟩
      rfl
  · exact iff_of_false (by simp) (fun h => h4 h.2.2.2.1)
  · exact iff_of_false (by simp) (fun h => h3 h.2.2.1)

/-! ## Storage facts about the committed post-states -/

theorem payPost_status (st : RegistryState) (invoiceId : Nat) :
    ((payPost st invoiceId).invoices invoiceId).status = 1 := by
  simp [payPost]

theorem payPost_other (st : RegistryState) (invoiceId j : Nat) (h : j ≠ invoiceId) :
    (payPost st invoiceId).invoices j = st.invoices j := by
  simp [payPost, Function.update_noteq h]

theorem payPost_nonces (st : RegistryState) (invoiceId : Nat) :
    (payPost st invoiceId).nonces = st.nonces := rfl

theorem payPost_nextId (st : RegistryState) (invoiceId : Nat) :
    (payPost st invoiceId).nextInvoiceId = st.nextInvoiceId := rfl

theorem cancelPost_status (st : RegistryState) (invoiceId : Nat) :
    ((cancelPost st invoiceId).invoices invoiceId).status = 2 := by
  simp [cancelPost]

theorem cancelPost_other (st : RegistryState) (invoiceId j : Nat) (h : j ≠ invoiceId) :
    (cancelPost st invoiceId).invoices j = st.invoices j := by
  simp [cancelPost, Function.update_noteq h]

theorem cancelPost_nonces (st : RegistryState) (invoiceId : Nat) :
    (cancelPost st invoiceId).nonces = st.nonces := rfl

theorem cancelPost_nextId (st : RegistryState) (invoiceId : Nat) :
    (cancelPost st invoiceId).nextInvoiceId = st.nextInvoiceId := rfl

theorem gaslessPost_nonce_self (st : RegistryState) (m p a e : Nat) (mh : B32) :
    (gaslessPost st m p a e mh).nonces m = st.nonces m + 1 := by
  simp [gaslessPost]

theorem gaslessPost_nonce_other (st : RegistryState) (m p a e : Nat) (mh : B32)
    (m2 : Nat) (h : m2 ≠ m) :
    (gaslessPost st m p a e mh).nonces m2 = st.nonces m2 := by
  simp [gaslessPost, Function.update_noteq h]

theorem gaslessPost_nextId (st : RegistryState) (m p a e : Nat) (mh : B32) :
    (gaslessPost st m p a e mh).nextInvoiceId = st.nextInvoiceId + 1 := rfl

theorem gaslessPost_invoice_new (st : RegistryState) (m p a e : Nat) (mh : B32) :
    (gaslessPost st m p a e mh).invoices st.nextInvoiceId =
      { merchant := m, payer := p, amount := a, expiresAt := e, status := 1,
        metaHash := mh } := by
  simp [gaslessPost]

theorem gaslessPost_invoice_old (st : RegistryState) (m p a e : Nat) (mh : B32)
    (j : Nat) (h : j ≠ st.nextInvoiceId) :
    (gaslessPost st m p a e mh).invoices j = st.invoices j := by
  simp [gaslessPost, Function.update_noteq h]

theorem gaslessPost_domain (st : RegistryState) (m p a e : Nat) (mh : B32) :
    (gaslessPost st m p a e mh).domain = st.domain := rfl

theorem createInvoice_fst (st : RegistryState) (sender payer amount expiresAt : Nat)
    (metadata : String) :
    (createInvoice st sender payer amount expiresAt metadata).1 = st.nextInvoiceId := rfl

theorem createInvoice_nextId (st : RegistryState) (sender payer amount expiresAt : Nat)
    (metadata : String) :
    (createInvoice st sender payer amount expiresAt metadata).2.nextInvoiceId =
      st.nextInvoiceId + 1 := rfl

theorem createInvoice_stored (st : RegistryState) (sender payer amount expiresAt : Nat)
    (metadata : String) :
    (createInvoice st sender payer amount expiresAt metadata).2.invoices st.nextInvoiceId =
      { merchant := sender, payer := payer, amount := amount, expiresAt := expiresAt,
        status := 0, metaHash := B32.keccakStr metadata } := by
  simp [createInvoice]

theorem createInvoice_old (st : RegistryState) (sender payer amount expiresAt : Nat)
    (metadata : String) (j : Nat) (h : j ≠ st.nextInvoiceId) :
    (createInvoice st sender payer amount expiresAt metadata).2.invoices j =
      st.invoices j := by
  simp [createInvoice, Function.update_noteq h]

theorem createInvoice_nonces (st : RegistryState) (sender payer amount expiresAt : Nat)
    (metadata : String) :
    (createInvoice st sender payer amount expiresAt metadata).2.nonces = st.nonces := rfl

/-! ## Transaction-semantics lemmas for `step` -/

theorem step_pay_ok {bank : Bank} {st st2 : RegistryState} {now sender invoiceId : Nat}
    (h : pay bank st now sender invoiceId = .ok st2) :
    step st (Op.payOp bank now sender invoiceId) = st2 := by
  simp only [step]
  rw [h]

theorem step_pay_error {bank : Bank} {st : RegistryState} {now sender invoiceId : Nat}
    {e : RegistryError} (h : pay bank st now sender invoiceId = .error e) :
    step st (Op.payOp bank now sender invoiceId) = st := by
  simp only [step]
  rw [h]

theorem step_cancel_ok {st st2 : RegistryState} {sender invoiceId : Nat}
    (h : cancelInvoice st sender invoiceId = .ok st2) :
    step st (Op.cancelOp sender invoiceId) = st2 := by
  simp only [step]
  rw [h]

theorem step_cancel_error {st : RegistryState} {sender invoiceId : Nat}
    {e : RegistryError} (h : cancelInvoice st sender invoiceId = .error e) :
    step st (Op.cancelOp sender invoiceId) = st := by
  simp only [step]
  rw [h]

theorem step_gasless_ok {bank : Bank} {st st2 : RegistryState}
    {now sender merchant payer amount expiresAt : Nat} {metadata : String} {sig : Sig}
    (h : createAndPayInvoice bank st now sender merchant payer amount expiresAt metadata sig
          = .ok st2) :
    step st (Op.gaslessOp bank now sender merchant payer amount expiresAt metadata sig)
      = st2 := by
  simp only [step]
  rw [h]

theorem step_gasless_error {bank : Bank} {st : RegistryState}
    {now sender merchant payer amount expiresAt : Nat} {metadata : String} {sig : Sig}
    {e : RegistryError}
    (h : createAndPayInvoice bank st now sender merchant payer amount expiresAt metadata sig
          = .error e) :
    step st (Op.gaslessOp bank now sender merchant payer amount expiresAt metadata sig)
      = st := by
  simp only [step]
  rw [h]

theorem step_create (st : RegistryState) (sender payer amount expiresAt : Nat)
    (metadata : String) :
    step st (Op.createOp sender payer amount expiresAt metadata) =
      (createInvoice st sender payer amount expiresAt metadata).2 := rfl

/-- No transaction ever decreases any merchant's stored nonce. -/
theorem step_nonces_mono (st : RegistryState) (op : Op) (m : Nat) :
    st.nonces m ≤ (step st op).nonces m := by
  cases op with
  | createOp sender payer amount expiresAt metadata =>
      rw [step_create, createInvoice_nonces]
  | payOp bank now sender invoiceId =>
      cases h : pay bank st now sender invoiceId with
      | ok st2 =>
          rw [step_pay_ok h]
          rw [pay_ok_iff] at h
          rw [h.2.2.2.2, payPost_nonces]
      | error e => rw [step_pay_error h]
  | cancelOp sender invoiceId =>
      cases h : cancelInvoice st sender invoiceId with
      | ok st2 =>
          rw [step_cancel_ok h]
          rw [cancelInvoice_ok_iff] at h
          rw [h.2.2, cancelPost_nonces]
      | error e => rw [step_cancel_error h]
  | gaslessOp bank now sender merchant payer amount expiresAt metadata sig =>
      cases h : createAndPayInvoice bank st now sender merchant payer amount expiresAt
          metadata sig with
      | ok st2 =>
          rw [step_gasless_ok h]
          rw [createAndPay_ok_iff] at h
          rw [h.2.2.2.2]
          by_cases hm : m = merchant
          · subst hm
            rw [gaslessPost_nonce_self]
            exact Nat.le_succ _
          · rw [gaslessPost_nonce_other _ _ _ _ _ _ _ hm]
      | error e => rw [step_gasless_error h]

/-- Nonces never decrease along any sequence of transactions. -/
theorem execTrace_nonces_mono (ops : List Op) (st : RegistryState) (m : Nat) :
    st.nonces m ≤ (execTrace st ops).nonces m := by
  induction ops generalizing st with
  | nil => exact Nat.le_refl _
  | cons op ops ih =>
      exact le_trans (step_nonces_mono st op m) (ih (step st op))

/-! ## Error-path lemmas -/

theorem pay_not_pending {bank : Bank} {st : RegistryState} {now sender invoiceId : Nat}
    (h : (st.invoices invoiceId).status ≠ 0) :
    pay bank st now sender invoiceId = .error .notPending := by
  unfold pay
  dsimp only
  rw [if_pos h]

theorem pay_expired {bank : Bank} {st : RegistryState} {now sender invoiceId : Nat}
    (h0 : (st.invoices invoiceId).status = 0)
    (h1 : (st.invoices invoiceId).expiresAt < now) :
    pay bank st now sender invoiceId = .error .expired := by
  unfold pay
  dsimp only
  rw [if_neg (not_not_intro h0), if_pos h1]

/-- Once the three guards of `pay` pass, the call is exactly: consult the
transfer capability on the already-Paid storage with the stored merchant and
amount; commit that storage on success, revert on failure. -/
theorem pay_guards_passed {bank : Bank} {st : RegistryState} {now sender invoiceId : Nat}
    (h0 : (st.invoices invoiceId).status = 0)
    (h1 : ¬ (st.invoices invoiceId).expiresAt < now)
    (h2 : ¬ ((st.invoices invoiceId).payer ≠ 0 ∧ sender ≠ (st.invoices invoiceId).payer)) :
    pay bank st now sender invoiceId =
      if bank (payPost st invoiceId) sender (st.invoices invoiceId).merchant
          (st.invoices invoiceId).amount
      then .ok (payPost st invoiceId)
      else .error .transferFailed := by
  unfold pay
  dsimp only
  rw [if_neg (not_not_intro h0), if_neg h1, if_neg h2]

theorem cancel_not_merchant {st : RegistryState} {sender invoiceId : Nat}
    (h : sender ≠ (st.invoices invoiceId).merchant) :
    cancelInvoice st sender invoiceId = .error .notMerchant := by
  unfold cancelInvoice
  dsimp only
  rw [if_pos h]

theorem cancel_not_pending {st : RegistryState} {sender invoiceId : Nat}
    (hm : sender = (st.invoices invoiceId).merchant)
    (h : (st.invoices invoiceId).status ≠ 0) :
    cancelInvoice st sender invoiceId = .error .cannotCancel := by
  unfold cancelInvoice
  dsimp only
  rw [if_neg (not_not_intro hm), if_pos h]

theorem gasless_expired {bank : Bank} {st : RegistryState}
    {now sender merchant payer amount expiresAt : Nat} {metadata : String} {sig : Sig}
    (h : expiresAt < now) :
    createAndPayInvoice bank st now sender merchant payer amount expiresAt metadata sig
      = .error .expired := by
  unfold createAndPayInvoice
  dsimp only
  rw [if_pos h]

theorem gasless_wrong_payer {bank : Bank} {st : RegistryState}
    {now sender merchant payer amount expiresAt : Nat} {metadata : String} {sig : Sig}
    (h1 : ¬ expiresAt < now) (h2 : payer ≠ 0 ∧ sender ≠ payer) :
    createAndPayInvoice bank st now sender merchant payer amount expiresAt metadata sig
      = .error .wrongPayer := by
  unfold createAndPayInvoice
  dsimp only
  rw [if_neg h1, if_pos h2]

theorem gasless_bad_sig {bank : Bank} {st : RegistryState}
    {now sender merchant payer amount expiresAt : Nat} {metadata : String} {sig : Sig}
    (h1 : ¬ expiresAt < now) (h2 : ¬ (payer ≠ 0 ∧ sender ≠ payer))
    (h3 : verifySignature st merchant payer amount expiresAt (B32.keccakStr metadata)
            (st.nonces merchant) sig = false) :
    createAndPayInvoice bank st now sender merchant payer amount expiresAt metadata sig
      = .error .invalidSignature := by
  unfold createAndPayInvoice
  dsimp only
  rw [if_neg h1, if_neg h2, if_pos (by simp [h3])]

/-- Once expiry, payer and signature checks of the gasless path pass, the call
is exactly: consult the transfer capability on the fully committed storage
(nonce bumped, invoice stored Paid), commit on success, revert on failure. -/
theorem gasless_guards_passed {bank : Bank} {st : RegistryState}
    {now sender merchant payer amount expiresAt : Nat} {metadata : String} {sig : Sig}
    (h1 : ¬ expiresAt < now) (h2 : ¬ (payer ≠ 0 ∧ sender ≠ payer))
    (h3 : verifySignature st merchant payer amount expiresAt (B32.keccakStr metadata)
            (st.nonces merchant) sig = true) :
    createAndPayInvoice bank st now sender merchant payer amount expiresAt metadata sig
      = if bank (gaslessPost st merchant payer amount expiresAt (B32.keccakStr metadata))
            sender merchant amount
        then .ok (gaslessPost st merchant payer amount expiresAt (B32.keccakStr metadata))
        else .error .transferFailed := by
  unfold createAndPayInvoice
  dsimp only
  rw [if_neg h1, if_neg h2, if_neg (not_not_intro h3)]

/-- Characterization of a passing signature check: the signature was made over
exactly the digest of the checked fields under the contract's domain, and
recovers to the (nonzero) merchant. -/
theorem verifySignature_true_iff (st : RegistryState)
    (merchant payer amount expiresAt : Nat) (metaHash : B32) (nonce : Nat) (sig : Sig) :
    verifySignature st merchant payer amount expiresAt metaHash nonce sig = true ↔
      sig.digest =
        { domain := st.domain, merchant := merchant, payer := payer, amount := amount,
          expiresAt := expiresAt, metaHash := metaHash, nonce := nonce } ∧
      sig.signer = merchant ∧ merchant ≠ 0 := by
  unfold verifySignature ecrecover
  dsimp only
  split_ifs with hd
  · rw [decide_eq_true_iff]
    constructor
    · rintro ⟨hn0, rfl⟩
      exact ⟨hd, rfl, hn0⟩
    · rintro ⟨-, rfl, hn0⟩
      exact ⟨hn0, rfl⟩
  · rw [decide_eq_true_iff]
    constructor
    · rintro ⟨hn0, -⟩
      exact absurd rfl hn0
    · rintro ⟨hdig, -, -⟩
      exact absurd hdig hd

/-! ## Claim theorems -/

/-- C10: the contract encodes status 0 = Pending, 1 = Paid, 2 = Cancelled,
while the TypeScript enum maps 0 ↦ NONE, 1 ↦ CREATED, 2 ↦ PAID, 3 ↦
CANCELLED; the dashboard copies the raw on-chain number unchanged, so a
contract-Paid invoice (such as invoice 0 of `stPaid`) is projected as
`CREATED` and a contract-Cancelled invoice as `PAID` — both disagreeing with
the faithful rendering `intendedTs`. -/
theorem frontend_status_encoding_mismatch :
    InvoiceStatus.toNat .NONE = 0 ∧ InvoiceStatus.toNat .CREATED = 1 ∧
    InvoiceStatus.toNat .PAID = 2 ∧ InvoiceStatus.toNat .CANCELLED = 3 ∧
    contractStatusOfNat 0 = .Pending ∧ contractStatusOfNat 1 = .Paid ∧
    contractStatusOfNat 2 = .Cancelled ∧
    projectStatus 1 = .CREATED ∧ projectStatus 2 = .PAID ∧
    projectStatus 1 ≠ intendedTs (contractStatusOfNat 1) ∧
    projectStatus 2 ≠ intendedTs (contractStatusOfNat 2) ∧
    (stPaid.invoices 0).status = 1 ∧
    projectStatus ((stPaid.invoices 0).status) = .CREATED := by
  decide

/-- C6 counterexample: `createInvoice` with `amount = 0` does not fail with
any error — it has no failure path at all — and commits a Pending invoice
with amount 0. -/
theorem create_zero_amount_accepted :
    (createInvoice (initState 0) 1 2 0 100 "x").1 = 0 ∧
    getInvoice (createInvoice (initState 0) 1 2 0 100 "x").2 0 =
      { merchant := 1, payer := 2, amount := 0, expiresAt := 100, status := 0,
        metaHash := B32.keccakStr "x" } := by
  exact ⟨rfl, by decide⟩

/-- C6 (amended): `createInvoice` performs no validation at all: for every
input — including `amount = 0` and an `expiresAt` already in the past — it
allocates the next id and stores a Pending invoice with exactly the given
fields; a past `expiresAt` merely makes the invoice unpayable (`pay` then
fails with Expired). -/
theorem create_no_validation (st : RegistryState)
    (sender payer amount expiresAt : Nat) (metadata : String)
    (bank : Bank) (now payCaller : Nat) (hnow : expiresAt < now) :
    (createInvoice st sender payer amount expiresAt metadata).1 = st.nextInvoiceId ∧
    (createInvoice st sender payer amount expiresAt metadata).2.invoices st.nextInvoiceId =
      { merchant := sender, payer := payer, amount := amount, expiresAt := expiresAt,
        status := 0, metaHash := B32.keccakStr metadata } ∧
    pay bank (createInvoice st sender payer amount expiresAt metadata).2 now payCaller
        st.nextInvoiceId = .error .expired := by
  refine ⟨createInvoice_fst st sender payer amount expiresAt metadata,
          createInvoice_stored st sender payer amount expiresAt metadata, ?_⟩
  apply pay_expired
  · rw [createInvoice_stored]
  · rw [createInvoice_stored]
    exact hnow

/-- Witness for C6 (amended): amount 0 and expiry 3 in the past of time 5. -/
theorem create_no_validation_witness :
    (createInvoice (initState 0) 1 2 0 3 "x").1 = (initState 0).nextInvoiceId ∧
    (createInvoice (initState 0) 1 2 0 3 "x").2.invoices (initState 0).nextInvoiceId =
      { merchant := 1, payer := 2, amount := 0, expiresAt := 3, status := 0,
        metaHash := B32.keccakStr "x" } ∧
    pay bankTrue (createInvoice (initState 0) 1 2 0 3 "x").2 5 7
        (initState 0).nextInvoiceId = .error .expired :=
  create_no_validation (initState 0) 1 2 0 3 "x" bankTrue 5 7 (by decide)

/-- C5 counterexample: on a fresh deployment id 5 was never allocated, yet
`pay` reports Expired (there is no NotFound in the contract), `cancelInvoice`
reports NotMerchant, and `getInvoice` returns the all-zero invoice record
instead of reporting anything. -/
theorem unknown_id_no_notfound :
    pay bankTrue (initState 0) 1 7 5 = .error .expired ∧
    cancelInvoice (initState 0) 7 5 = .error .notMerchant ∧
    getInvoice (initState 0) 5 = zeroInvoice := by
  refine ⟨?_, ?_, rfl⟩ <;> rfl

/-- C5 (amended): the contract has no NotFound error; a never-allocated id
reads as the all-zero record, so `pay` on it fails with Expired whenever the
current time is positive (the zero record's `expiresAt` is 0 and its status
reads Pending), `cancelInvoice` by any nonzero caller fails with NotMerchant
(the zero record's merchant is the null address), and `getInvoice` returns
the zero record. -/
theorem unknown_id_behaviour (bank : Bank) (st : RegistryState)
    (invoiceId now sender : Nat)
    (h : st.invoices invoiceId = zeroInvoice) (hnow : 1 ≤ now) (hsender : sender ≠ 0) :
    pay bank st now sender invoiceId = .error .expired ∧
    cancelInvoice st sender invoiceId = .error .notMerchant ∧
    getInvoice st invoiceId = zeroInvoice := by
  refine ⟨?_, ?_, h⟩
  · apply pay_expired
    · rw [h]
      rfl
    · rw [h]
      exact hnow
  · apply cancel_not_merchant
    rw [h]
    exact hsender

/-- Witness for C5 (amended): fresh registry, id 6, time 2, caller 8. -/
theorem unknown_id_behaviour_witness :
    pay bankFalse (initState 0) 2 8 6 = .error .expired ∧
    cancelInvoice (initState 0) 8 6 = .error .notMerchant ∧
    getInvoice (initState 0) 6 = zeroInvoice :=
  unknown_id_behaviour bankFalse (initState 0) 6 2 8 rfl (by decide) (by decide)

/-- C2 counterexample: at time 5, invoice fields expiring at 3 and a
signature recovering to address 2 ≠ merchant 1 (`mismatchSig`): the gasless
call reports Expired, not InvalidSignature — the expiry check runs before
signature recovery. -/
theorem expired_beats_bad_signature :
    createAndPayInvoice bankTrue (initState 0) 5 7 1 0 10 3 "x" mismatchSig
      = .error .expired ∧
    RegistryError.expired ≠ RegistryError.invalidSignature := by
  exact ⟨rfl, by decide⟩

/-- C2 (amended): `createAndPayInvoice` checks in the order Expired, then
WrongPayer, then the signature: whenever `expiresAt` is already past, the
error is Expired regardless of the signature; when not expired but the payer
restriction is violated, the error is WrongPayer; only otherwise is the
signature consulted, a failing check yielding InvalidSignature (the
contract's single error for both recovery failure and merchant mismatch). -/
theorem gasless_check_order (bank : Bank) (st : RegistryState)
    (now sender merchant payer amount expiresAt : Nat) (metadata : String) (sig : Sig) :
    (expiresAt < now →
      createAndPayInvoice bank st now sender merchant payer amount expiresAt metadata sig
        = .error .expired) ∧
    (¬ expiresAt < now → payer ≠ 0 ∧ sender ≠ payer →
      createAndPayInvoice bank st now sender merchant payer amount expiresAt metadata sig
        = .error .wrongPayer) ∧
    (¬ expiresAt < now → ¬ (payer ≠ 0 ∧ sender ≠ payer) →
      verifySignature st merchant payer amount expiresAt (B32.keccakStr metadata)
          (st.nonces merchant) sig = false →
      createAndPayInvoice bank st now sender merchant payer amount expiresAt metadata sig
        = .error .invalidSignature) :=
  ⟨fun h => gasless_expired h,
   fun h1 h2 => gasless_wrong_payer h1 h2,
   fun h1 h2 h3 => gasless_bad_sig h1 h2 h3⟩

/-- Witness for C2 (amended): the expired-input conjunct at the
counterexample's own input. -/
theorem gasless_check_order_witness :
    createAndPayInvoice bankFalse (initState 0) 5 7 1 0 10 3 "x" mismatchSig
      = .error .expired :=
  (gasless_check_order bankFalse (initState 0) 5 7 1 0 10 3 "x" mismatchSig).1 (by decide)

/-- C9: identifiers are allocated densely and append-only starting at 0: the
counter starts at 0; `createInvoice` returns the current counter value and
bumps it by exactly 1; a successful `createAndPayInvoice` stores its invoice
at the current counter value and bumps it by exactly 1; `pay` and
`cancelInvoice` transactions never change the counter. -/
theorem id_allocation_dense :
    (∀ d, (initState d).nextInvoiceId = 0) ∧
    (∀ st sender payer amount expiresAt metadata,
      (createInvoice st sender payer amount expiresAt metadata).1 = st.nextInvoiceId ∧
      (createInvoice st sender payer amount expiresAt metadata).2.nextInvoiceId
        = st.nextInvoiceId + 1) ∧
    (∀ bank st now sender merchant payer amount expiresAt metadata sig st2,
      createAndPayInvoice bank st now sender merchant payer amount expiresAt metadata sig
          = .ok st2 →
      st2.invoices st.nextInvoiceId =
        { merchant := merchant, payer := payer, amount := amount, expiresAt := expiresAt,
          status := 1, metaHash := B32.keccakStr metadata } ∧
      st2.nextInvoiceId = st.nextInvoiceId + 1) ∧
    (∀ bank st now sender invoiceId,
      (step st (Op.payOp bank now sender invoiceId)).nextInvoiceId = st.nextInvoiceId) ∧
    (∀ st sender invoiceId,
      (step st (Op.cancelOp sender invoiceId)).nextInvoiceId = st.nextInvoiceId) := by
  refine ⟨fun _ => rfl, fun _ _ _ _ _ _ => ⟨rfl, rfl⟩, ?_, ?_, ?_⟩
  · intro bank st now sender merchant payer amount expiresAt metadata sig st2 h
    rw [createAndPay_ok_iff] at h
    obtain ⟨-, -, -, -, rfl⟩ := h
    exact ⟨gaslessPost_invoice_new st merchant payer amount expiresAt _,
           gaslessPost_nextId st merchant payer amount expiresAt _⟩
  · intro bank st now sender invoiceId
    cases h : pay bank st now sender invoiceId with
    | ok st2 =>
        rw [step_pay_ok h]
        rw [pay_ok_iff] at h
        rw [h.2.2.2.2, payPost_nextId]
    | error e => rw [step_pay_error h]
  · intro st sender invoiceId
    cases h : cancelInvoice st sender invoiceId with
    | ok st2 =>
        rw [step_cancel_ok h]
        rw [cancelInvoice_ok_iff] at h
        rw [h.2.2, cancelPost_nextId]
    | error e => rw [step_cancel_error h]

/-- Witness for C9: the successful-gasless conjunct on a fresh registry with
merchant 1's valid signature `demoSig`. -/
theorem id_allocation_dense_witness :
    (gaslessPost (initState 0) 1 0 5 10 (B32.keccakStr "x")).nextInvoiceId
      = (initState 0).nextInvoiceId + 1 :=
  (id_allocation_dense.2.2.1 bankTrue (initState 0) 1 7 1 0 5 10 "x" demoSig
    (gaslessPost (initState 0) 1 0 5 10 (B32.keccakStr "x")) rfl).2

/-- C8: once `pay`'s guards pass, the invoice's status is set to Paid
strictly before the external transfer capability is consulted — the capability
observes the already-Paid storage `payPost` — and the transfer invoked is
exactly `transfer(sender, merchant, amount)` with the stored, unmodified
amount. -/
theorem pay_paid_before_transfer (bank : Bank) (st : RegistryState)
    (now sender invoiceId : Nat)
    (h0 : (st.invoices invoiceId).status = 0)
    (h1 : ¬ (st.invoices invoiceId).expiresAt < now)
    (h2 : ¬ ((st.invoices invoiceId).payer ≠ 0 ∧ sender ≠ (st.invoices invoiceId).payer)) :
    pay bank st now sender invoiceId =
      (if bank (payPost st invoiceId) sender (st.invoices invoiceId).merchant
          (st.invoices invoiceId).amount
       then .ok (payPost st invoiceId)
       else .error .transferFailed) ∧
    ((payPost st invoiceId).invoices invoiceId).status = 1 ∧
    ((payPost st invoiceId).invoices invoiceId).amount = (st.invoices invoiceId).amount ∧
    ((payPost st invoiceId).invoices invoiceId).merchant
      = (st.invoices invoiceId).merchant := by
  refine ⟨pay_guards_passed h0 h1 h2, payPost_status st invoiceId, ?_, ?_⟩ <;>
    simp [payPost]

/-- Witness for C8: payer 7 paying the Pending invoice 0 of `stPending` at
time 1. -/
theorem pay_paid_before_transfer_witness :
    pay bankTrue stPending 1 7 0 =
      (if bankTrue (payPost stPending 0) 7 ((stPending.invoices 0).merchant)
          ((stPending.invoices 0).amount)
       then .ok (payPost stPending 0)
       else .error .transferFailed) ∧
    ((payPost stPending 0).invoices 0).status = 1 ∧
    ((payPost stPending 0).invoices 0).amount = (stPending.invoices 0).amount ∧
    ((payPost stPending 0).invoices 0).merchant = (stPending.invoices 0).merchant :=
  pay_paid_before_transfer bankTrue stPending 1 7 0 (by decide) (by decide) (by decide)

/-- C7 counterexample: in `stPaid` invoice 0 is terminal (Paid), yet
`cancelInvoice` by caller 9 — who is not the merchant — fails with
NotMerchant, not with the InvalidState-class error (`cannotCancel`): the
merchant check precedes the status check. -/
theorem cancel_terminal_by_stranger :
    (stPaid.invoices 0).status = 1 ∧
    cancelInvoice stPaid 9 0 = .error .notMerchant ∧
    RegistryError.notMerchant ≠ RegistryError.cannotCancel ∧
    RegistryError.notMerchant ≠ RegistryError.notPending := by
  refine ⟨by decide, ?_, by decide, by decide⟩
  rfl

/-- C7 (amended): each invoice's status changes at most once after creation,
from Pending to exactly one of Paid (via `pay`, 0 → 1) or Cancelled (via
`cancelInvoice`, 0 → 2), both terminal: no transaction changes the status of
an already-allocated non-Pending invoice; `pay` targeting a terminal invoice
fails with the InvalidState-class error NotPending, and `cancelInvoice` by
the merchant targeting a terminal invoice fails with the InvalidState-class
error CannotCancel — but `cancelInvoice` by a non-merchant fails with
NotMerchant, its merchant check running before the status check. -/
theorem status_terminal_discipline :
    (∀ (bank : Bank) st now sender invoiceId,
      (st.invoices invoiceId).status ≠ 0 →
      pay bank st now sender invoiceId = .error .notPending) ∧
    (∀ (st : RegistryState) sender invoiceId,
      sender = (st.invoices invoiceId).merchant →
      (st.invoices invoiceId).status ≠ 0 →
      cancelInvoice st sender invoiceId = .error .cannotCancel) ∧
    (∀ (st : RegistryState) sender invoiceId,
      sender ≠ (st.invoices invoiceId).merchant →
      cancelInvoice st sender invoiceId = .error .notMerchant) ∧
    (∀ (st : RegistryState) op invoiceId,
      invoiceId < st.nextInvoiceId →
      (st.invoices invoiceId).status ≠ 0 →
      ((step st op).invoices invoiceId).status = (st.invoices invoiceId).status) ∧
    (∀ (bank : Bank) st now sender invoiceId st2,
      pay bank st now sender invoiceId = .ok st2 →
      (st.invoices invoiceId).status = 0 ∧ (st2.invoices invoiceId).status = 1) ∧
    (∀ (st : RegistryState) sender invoiceId st2,
      cancelInvoice st sender invoiceId = .ok st2 →
      (st.invoices invoiceId).status = 0 ∧ (st2.invoices invoiceId).status = 2) := by
  refine ⟨fun bank st now sender invoiceId h => pay_not_pending h,
          fun st sender invoiceId hm h => cancel_not_pending hm h,
          fun st sender invoiceId h => cancel_not_merchant h, ?_, ?_, ?_⟩
  · intro st op invoiceId hlt hstat
    cases op with
    | createOp sender payer amount expiresAt metadata =>
        rw [step_create, createInvoice_old st sender payer amount expiresAt metadata
              invoiceId (Nat.ne_of_lt hlt)]
    | payOp bank now sender target =>
        cases h : pay bank st now sender target with
        | ok st2 =>
            rw [step_pay_ok h]
            rw [pay_ok_iff] at h
            obtain ⟨htarget, -, -, -, rfl⟩ := h
            by_cases he : invoiceId = target
            · subst he
              exact absurd htarget hstat
            · rw [payPost_other st target invoiceId he]
        | error e => rw [step_pay_error h]
    | cancelOp sender target =>
        cases h : cancelInvoice st sender target with
        | ok st2 =>
            rw [step_cancel_ok h]
            rw [cancelInvoice_ok_iff] at h
            obtain ⟨-, htarget, rfl⟩ := h
            by_cases he : invoiceId = target
            · subst he
              exact absurd htarget hstat
            · rw [cancelPost_other st target invoiceId he]
        | error e => rw [step_cancel_error h]
    | gaslessOp bank now sender merchant payer amount expiresAt metadata sig =>
        cases h : createAndPayInvoice bank st now sender merchant payer amount expiresAt
            metadata sig with
        | ok st2 =>
            rw [step_gasless_ok h]
            rw [createAndPay_ok_iff] at h
            obtain ⟨-, -, -, -, rfl⟩ := h
            rw [gaslessPost_invoice_old st merchant payer amount expiresAt _ invoiceId
                  (Nat.ne_of_lt hlt)]
        | error e => rw [step_gasless_error h]
  · intro bank st now sender invoiceId st2 h
    rw [pay_ok_iff] at h
    obtain ⟨h0, -, -, -, rfl⟩ := h
    exact ⟨h0, payPost_status st invoiceId⟩
  · intro st sender invoiceId st2 h
    rw [cancelInvoice_ok_iff] at h
    obtain ⟨-, h0, rfl⟩ := h
    exact ⟨h0, cancelPost_status st invoiceId⟩

/-- Witness for C7 (amended): `pay` on the already-Paid invoice 0 of `stPaid`
fails with NotPending. -/
theorem status_terminal_discipline_witness :
    pay bankTrue stPaid 1 7 0 = .error .notPending :=
  status_terminal_discipline.1 bankTrue stPaid 1 7 0 (by decide)

/-- C1: if the transfer capability reports failure, `pay` reports
TransferFailed and the transaction reverts: the targeted invoice is
observably still Pending afterwards and the same call with a succeeding
transfer then commits the Paid state; in the gasless path a transfer failure
likewise reports TransferFailed and reverts, leaving the identifier counter,
the merchant's nonce, and every invoice slot unchanged. -/
theorem transfer_failed_rollback (bankF bankT : Bank) (st : RegistryState)
    (now sender invoiceId merchant payer amount expiresAt : Nat)
    (metadata : String) (sig : Sig)
    (hp0 : (st.invoices invoiceId).status = 0)
    (hp1 : ¬ (st.invoices invoiceId).expiresAt < now)
    (hp2 : ¬ ((st.invoices invoiceId).payer ≠ 0 ∧ sender ≠ (st.invoices invoiceId).payer))
    (hg1 : ¬ expiresAt < now)
    (hg2 : ¬ (payer ≠ 0 ∧ sender ≠ payer))
    (hg3 : verifySignature st merchant payer amount expiresAt (B32.keccakStr metadata)
             (st.nonces merchant) sig = true)
    (hF : ∀ s2 f t a, bankF s2 f t a = false)
    (hT : ∀ s2 f t a, bankT s2 f t a = true) :
    pay bankF st now sender invoiceId = .error .transferFailed ∧
    step st (Op.payOp bankF now sender invoiceId) = st ∧
    ((step st (Op.payOp bankF now sender invoiceId)).invoices invoiceId).status = 0 ∧
    pay bankT st now sender invoiceId = .ok (payPost st invoiceId) ∧
    createAndPayInvoice bankF st now sender merchant payer amount expiresAt metadata sig
      = .error .transferFailed ∧
    step st (Op.gaslessOp bankF now sender merchant payer amount expiresAt metadata sig)
      = st ∧
    (step st (Op.gaslessOp bankF now sender merchant payer amount expiresAt metadata sig)
      ).nextInvoiceId = st.nextInvoiceId ∧
    (step st (Op.gaslessOp bankF now sender merchant payer amount expiresAt metadata sig)
      ).nonces merchant = st.nonces merchant := by
  have hpayF : pay bankF st now sender invoiceId = .error .transferFailed := by
    rw [pay_guards_passed hp0 hp1 hp2, hF, if_neg]
    simp
  have hgasF : createAndPayInvoice bankF st now sender merchant payer amount expiresAt
      metadata sig = .error .transferFailed := by
    rw [gasless_guards_passed hg1 hg2 hg3, hF, if_neg]
    simp
  have hstepPay : step st (Op.payOp bankF now sender invoiceId) = st := step_pay_error hpayF
  have hstepGas :
      step st (Op.gaslessOp bankF now sender merchant payer amount expiresAt metadata sig)
        = st := step_gasless_error hgasF
  refine ⟨hpayF, hstepPay, ?_, ?_, hgasF, hstepGas, ?_, ?_⟩
  · rw [hstepPay]
    exact hp0
  · rw [pay_guards_passed hp0 hp1 hp2, hT, if_pos rfl]
  · rw [hstepGas]
  · rw [hstepGas]

/-- Witness for C1: the Pending invoice 0 of `stPending` (merchant 1, open
payer, amount 5, expiry 10), paid by 7 at time 1, and the gasless
authorization `demoSig` over the same fields, with an always-failing and an
always-succeeding transfer capability. -/
theorem transfer_failed_rollback_witness :
    pay bankFalse stPending 1 7 0 = .error .transferFailed ∧
    step stPending (Op.payOp bankFalse 1 7 0) = stPending ∧
    ((step stPending (Op.payOp bankFalse 1 7 0)).invoices 0).status = 0 ∧
    pay bankTrue stPending 1 7 0 = .ok (payPost stPending 0) ∧
    createAndPayInvoice bankFalse stPending 1 7 1 0 5 10 "x" demoSig
      = .error .transferFailed ∧
    step stPending (Op.gaslessOp bankFalse 1 7 1 0 5 10 "x" demoSig) = stPending ∧
    (step stPending (Op.gaslessOp bankFalse 1 7 1 0 5 10 "x" demoSig)).nextInvoiceId
      = stPending.nextInvoiceId ∧
    (step stPending (Op.gaslessOp bankFalse 1 7 1 0 5 10 "x" demoSig)).nonces 1
      = stPending.nonces 1 :=
  transfer_failed_rollback bankFalse bankTrue stPending 1 7 0 1 0 5 10 "x" demoSig
    (by decide) (by decide) (by decide) (by decide) (by decide) (by decide)
    (fun _ _ _ _ => rfl) (fun _ _ _ _ => rfl)

/-- C4: replaying a consumed gasless authorization is impossible: if a
`createAndPayInvoice` call succeeds, the identical second call — same
merchant, same invoice fields, same signature, by the same caller at the same
time — fails with InvalidSignature (the contract's single signature error),
because the digest is now recomputed from the incremented nonce and the
signature no longer recovers the merchant on it. -/
theorem replay_rejected (bank bank2 : Bank) (st st2 : RegistryState)
    (now sender merchant payer amount expiresAt : Nat) (metadata : String) (sig : Sig)
    (h : createAndPayInvoice bank st now sender merchant payer amount expiresAt metadata sig
          = .ok st2) :
    createAndPayInvoice bank2 st2 now sender merchant payer amount expiresAt metadata sig
      = .error .invalidSignature := by
  rw [createAndPay_ok_iff] at h
  obtain ⟨h1, h2, h3, -, rfl⟩ := h
  rw [verifySignature_true_iff] at h3
  obtain ⟨hdig, -, -⟩ := h3
  apply gasless_bad_sig h1 h2
  cases hb : verifySignature
      (gaslessPost st merchant payer amount expiresAt (B32.keccakStr metadata))
      merchant payer amount expiresAt (B32.keccakStr metadata)
      ((gaslessPost st merchant payer amount expiresAt (B32.keccakStr metadata)).nonces
        merchant) sig with
  | false => rfl
  | true =>
      exfalso
      rw [verifySignature_true_iff] at hb
      obtain ⟨hdig2, -, -⟩ := hb
      rw [hdig] at hdig2
      have hnon := congrArg Digest.nonce hdig2
      dsimp only at hnon
      rw [gaslessPost_nonce_self] at hnon
      omega

/-- Witness for C4: merchant 1's signature `demoSig` is consumed on the fresh
registry; the identical replay against the committed state is rejected. -/
theorem replay_rejected_witness :
    createAndPayInvoice bankTrue (gaslessPost (initState 0) 1 0 5 10 (B32.keccakStr "x"))
        1 7 1 0 5 10 "x" demoSig = .error .invalidSignature :=
  replay_rejected bankTrue bankTrue (initState 0)
    (gaslessPost (initState 0) 1 0 5 10 (B32.keccakStr "x"))
    1 7 1 0 5 10 "x" demoSig rfl

/-- C3: nonce discipline — every merchant's nonce starts at 0; a successful
gasless authorization increments exactly that merchant's nonce by exactly 1;
every failed gasless call reverts, leaving the state (hence the nonce)
untouched; no transaction ever decreases a nonce; and a consumed
(merchant, nonce) pair can never be consumed again later in any trace: every
later consumption by that merchant uses a strictly larger nonce value. -/
theorem nonce_discipline :
    (∀ d m, (initState d).nonces m = 0) ∧
    (∀ (bank : Bank) st now sender merchant payer amount expiresAt metadata sig st2,
      createAndPayInvoice bank st now sender merchant payer amount expiresAt metadata sig
          = .ok st2 →
      st2.nonces merchant = st.nonces merchant + 1 ∧
      ∀ m2, m2 ≠ merchant → st2.nonces m2 = st.nonces m2) ∧
    (∀ (bank : Bank) st now sender merchant payer amount expiresAt metadata sig err,
      createAndPayInvoice bank st now sender merchant payer amount expiresAt metadata sig
          = .error err →
      step st (Op.gaslessOp bank now sender merchant payer amount expiresAt metadata sig)
        = st) ∧
    (∀ st op m, st.nonces m ≤ (step st op).nonces m) ∧
    (∀ st op m n, consumes st op m n →
      (step st op).nonces m = n + 1 ∧
      ∀ ops op2 n2, consumes (execTrace (step st op) ops) op2 m n2 → n < n2) := by
  refine ⟨fun d m => rfl, ?_, ?_, step_nonces_mono, ?_⟩
  · intro bank st now sender merchant payer amount expiresAt metadata sig st2 h
    rw [createAndPay_ok_iff] at h
    obtain ⟨-, -, -, -, rfl⟩ := h
    exact ⟨gaslessPost_nonce_self st merchant payer amount expiresAt _,
           fun m2 hm2 => gaslessPost_nonce_other st merchant payer amount expiresAt _ m2 hm2⟩
  · intro bank st now sender merchant payer amount expiresAt metadata sig err h
    exact step_gasless_error h
  · intro st op m n hc
    obtain ⟨bank, now, sender, payer, amount, expiresAt, metadata, sig, st2, rfl, hn, hok⟩
      := hc
    have hstep := step_gasless_ok hok
    rw [createAndPay_ok_iff] at hok
    obtain ⟨-, -, -, -, rfl⟩ := hok
    constructor
    · rw [hstep, gaslessPost_nonce_self, hn]
    · intro ops op2 n2 hc2
      obtain ⟨b2, now2, s2, p2, a2, e2, md2, sg2, st3, -, hn2, -⟩ := hc2
      have hmono := execTrace_nonces_mono ops
        (step st (Op.gaslessOp bank now sender m payer amount expiresAt metadata sig)) m
      rw [hstep] at hn2
      rw [hstep, gaslessPost_nonce_self, hn, hn2] at hmono
      omega

/-- Witness for C3: consuming nonce 0 of merchant 1 on the fresh registry
bumps the stored nonce to 1. -/
theorem nonce_discipline_witness :
    (gaslessPost (initState 0) 1 0 5 10 (B32.keccakStr "x")).nonces 1
      = (initState 0).nonces 1 + 1 :=
  (nonce_discipline.2.1 bankTrue (initState 0) 1 7 1 0 5 10 "x" demoSig
    (gaslessPost (initState 0) 1 0 5 10 (B32.keccakStr "x")) rfl).1

end StablePay
